import Mathlib

/-!
Verification of the chart-analysis repository's position-sizing, leverage
recommendation and chart-annotation logic, shallowly embedded from
`render_deployment/modules/leverage_calculator.py` and
`render_deployment/modules/chart_annotator.py`.

Python floats are modelled as exact rationals (ℚ), Python `int()` truncation
as `pyInt`, fallible Python code as `Except`/`Option`.
-/

/-- The `PositionCalculation` dataclass of `leverage_calculator.py`. -/
structure PositionCalculation where
  entry_price : ℚ
  stop_loss : ℚ
  account_balance : ℚ
  risk_percent : ℚ
  leverage : ℚ
  position_size : ℚ
  required_margin : ℚ
  potential_profit : ℚ
  potential_loss : ℚ
  rr_ratio : ℚ
deriving DecidableEq, Repr

/-- The method `LeverageCalculator.calculate_position_size`.  The Python body is
wrapped in a try/except that re-raises any exception as `ValueError`; we model
the whole method as `Except String`.  The Python expression
`leveraged_position_size * entry_price / leverage` raises `ZeroDivisionError`
when `leverage == 0`; that check is hoisted to the top of the embedding (the
intervening computations are pure, so observable behaviour is unchanged). -/
def calculate_position_size (entry_price stop_loss account_balance risk_percent leverage : ℚ) :
    Except String PositionCalculation :=
  let price_risk := |entry_price - stop_loss|
  if price_risk = 0 then
    Except.error "entry price and stop loss cannot be equal"
  else if leverage = 0 then
    Except.error "float division by zero"
  else
    let risk_amount := account_balance * risk_percent / 100
    let base_position_size := risk_amount / price_risk
    let leveraged_position_size := base_position_size * leverage
    let required_margin := leveraged_position_size * entry_price / leverage
    let pl :=
      if entry_price > stop_loss then
        let profit_price := entry_price + (entry_price - stop_loss) * 2
        ((profit_price - entry_price) * leveraged_position_size,
         (entry_price - stop_loss) * leveraged_position_size)
      else
        let profit_price := stop_loss - (stop_loss - entry_price) * 2
        ((entry_price - profit_price) * leveraged_position_size,
         (stop_loss - entry_price) * leveraged_position_size)
    let rr_ratio := if pl.2 > 0 then pl.1 / pl.2 else 0
    Except.ok
      { entry_price := entry_price
        stop_loss := stop_loss
        account_balance := account_balance
        risk_percent := risk_percent
        leverage := leverage
        position_size := leveraged_position_size
        required_margin := required_margin
        potential_profit := pl.1
        potential_loss := pl.2
        rr_ratio := rr_ratio }

instance : DecidableEq (Except String PositionCalculation) := fun x y =>
  match x, y with
  | Except.error a, Except.error b =>
      if h : a = b then isTrue (h ▸ rfl) else isFalse fun hh => h (Except.error.inj hh)
  | Except.error _, Except.ok _ => isFalse fun hh => Except.noConfusion hh
  | Except.ok _, Except.error _ => isFalse fun hh => Except.noConfusion hh
  | Except.ok a, Except.ok b =>
      if h : a = b then isTrue (h ▸ rfl) else isFalse fun hh => h (Except.ok.inj hh)

/-- The result of `calculate_position_size(entry=1.0850, stop=1.0820,
balance=1000, risk_percent=2, leverage=10)`, computed exactly. -/
def exampleCalc : PositionCalculation :=
  ⟨217/200, 541/500, 1000, 2, 10, 200000/3, 21700/3, 400, 200, 2⟩

/-- The result of `calculate_position_size(entry=100, stop=110, balance=1000,
risk_percent=2, leverage=1)`, a short position. -/
def shortCalc : PositionCalculation :=
  ⟨100, 110, 1000, 2, 1, 2, 200, 20, 20, 1⟩

/-- Claim C1: every successfully returned `PositionCalculation` satisfies
`position_size = (balance * risk_percent / 100) / |entry - stop| * leverage`
and `required_margin = position_size * entry / leverage`; and at the documented
example `entry=1.0850, stop=1.0820, balance=1000, risk_percent=2, leverage=10`
the price risk is `0.0030`, the risk amount is `20`, the unleveraged base size
is `20000/3 ≈ 6666.67` and the position size is `200000/3 ≈ 66666.67`. -/
theorem calculate_position_size_formulas :
    (∀ e s b r l c, calculate_position_size e s b r l = Except.ok c →
        c.position_size = (b * r / 100) / |e - s| * l ∧
        c.required_margin = c.position_size * e / l) ∧
    (calculate_position_size (217/200) (541/500) 1000 2 10 = Except.ok exampleCalc ∧
     |(217/200 : ℚ) - 541/500| = 3/1000 ∧
     ((1000 : ℚ) * 2 / 100) = 20 ∧
     exampleCalc.position_size = 200000/3 ∧
     exampleCalc.position_size / 10 = 20000/3 ∧
     |exampleCalc.position_size / 10 - 666667/100| < 1/100 ∧
     |exampleCalc.position_size - 6666667/100| < 1/100) := by
  constructor
  · intro e s b r l c h
    simp only [calculate_position_size] at h
    split_ifs at h with h1 h2 h3 <;>
      simp only [Except.ok.injEq] at h <;> subst h <;> exact ⟨rfl, rfl⟩
  · have habs : |(217/200 : ℚ) - 541/500| = 3/1000 := by
      rw [show (217/200 : ℚ) - 541/500 = 3/1000 by norm_num, abs_of_pos] <;> norm_num
    refine ⟨?_, habs, by norm_num, by norm_num [exampleCalc], by norm_num [exampleCalc],
      ?_, ?_⟩
    · have habs2 : |(3/1000 : ℚ)| = 3/1000 := abs_of_pos (by norm_num)
      norm_num [calculate_position_size, exampleCalc, habs, habs2]
    · rw [show exampleCalc.position_size / 10 - 666667/100 = -(1/300) by norm_num [exampleCalc],
        abs_of_neg] <;> norm_num
    · rw [show exampleCalc.position_size - 6666667/100 = -(1/300) by norm_num [exampleCalc],
        abs_of_neg] <;> norm_num

theorem calculate_position_size_formulas_witness :
    exampleCalc.position_size = ((1000 : ℚ) * 2 / 100) / |(217/200 : ℚ) - 541/500| * 10 ∧
    exampleCalc.required_margin = exampleCalc.position_size * (217/200) / 10 :=
  calculate_position_size_formulas.1 (217/200) (541/500) 1000 2 10 exampleCalc
    calculate_position_size_formulas.2.1

/-- Claim C2: whenever the entry price equals the stop loss, the method raises
the invalid-input `ValueError` and never returns a `PositionCalculation`. -/
theorem calculate_position_size_equal_prices :
    ∀ e b r l : ℚ, ∃ m, calculate_position_size e e b r l = Except.error m := by
  intro e b r l
  exact ⟨"entry price and stop loss cannot be equal", by simp [calculate_position_size]⟩

/-- Claim C3 (code-bug evaluation): at the short-position input `entry=100,
stop=110, balance=1000, risk_percent=2, leverage=1` the code returns a result
with `potential_loss = 20 > 0` but `rr_ratio = 1`, not the claimed `2.0`: the
short branch places the profit target only one stop-distance beyond entry,
contradicting the code's own `TP = 2x SL` comment and the long branch. -/
theorem calculate_position_size_short_rr :
    calculate_position_size 100 110 1000 2 1 = Except.ok shortCalc ∧
    shortCalc.potential_loss > 0 ∧ shortCalc.rr_ratio = 1 ∧ shortCalc.rr_ratio ≠ 2 := by
  refine ⟨?_, by norm_num [shortCalc], by norm_num [shortCalc], by norm_num [shortCalc]⟩
  have habs : |(-10 : ℚ)| = 10 := by rw [abs_of_neg] <;> norm_num
  norm_num [calculate_position_size, shortCalc, habs]

/-- Python `int()` applied to a float: truncation toward zero. -/
def pyInt (q : ℚ) : ℤ := if 0 ≤ q then ⌊q⌋ else ⌈q⌉

theorem pyInt_mono {x y : ℚ} (h : x ≤ y) : pyInt x ≤ pyInt y := by
  unfold pyInt
  split_ifs with hx hy hy
  · exact Int.floor_le_floor h
  · exact absurd (hx.trans h) hy
  · exact (Int.ceil_le.mpr (by exact_mod_cast le_of_not_le hx)).trans
      (Int.le_floor.mpr (by exact_mod_cast hy))
  · exact Int.ceil_le_ceil h

theorem pyInt_eval (q : ℚ) (z : ℤ) (h0 : 0 ≤ q) (h1 : (z : ℚ) ≤ q) (h2 : q < z + 1) :
    pyInt q = z := by
  rw [pyInt, if_pos h0]
  exact Int.floor_eq_iff.mpr ⟨h1, by exact_mod_cast h2⟩

/-- The method `ChartAnnotator._price_to_y_position` of `chart_annotator.py`:
maps a price into a vertical pixel coordinate.  `self.height` is the image
height; the float constants 0.5, 0.9 and 0.05 are the exact rationals the
source spells out. -/
def _price_to_y_position (height : ℕ) (price min_price max_price : ℚ) : ℤ :=
  let price_range := max_price - min_price
  if price_range = 0 then pyInt ((height : ℚ) * (1/2))
  else
    let normalized := (price - min_price) / price_range
    let y : ℤ :=
      (height : ℤ) - pyInt (normalized * ((height : ℚ) * (9/10))) - pyInt ((height : ℚ) * (1/20))
    max 10 (min ((height : ℤ) - 10) y)

/-- Claim C4 (amended): the price-to-pixel mapping is weakly monotonic; for
`min_price < p1 < p2 < max_price` the y for p1 is greater than or equal to the
y for p2 (strictness fails because of `int()` truncation and clamping). -/
theorem price_to_y_weakly_monotone :
    ∀ (height : ℕ) (mn p1 p2 mx : ℚ), mn < p1 → p1 < p2 → p2 < mx →
      _price_to_y_position height p2 mn mx ≤ _price_to_y_position height p1 mn mx := by
  intro h mn p1 p2 mx h1 h2 h3
  have hr : (0 : ℚ) < mx - mn := by linarith
  simp only [_price_to_y_position]
  rw [if_neg (ne_of_gt hr), if_neg (ne_of_gt hr)]
  refine max_le_max le_rfl (min_le_min le_rfl ?_)
  have hmono : pyInt ((p1 - mn) / (mx - mn) * ((h : ℚ) * (9/10))) ≤
      pyInt ((p2 - mn) / (mx - mn) * ((h : ℚ) * (9/10))) := by
    refine pyInt_mono (mul_le_mul_of_nonneg_right ?_ (by positivity))
    exact (div_le_div_right hr).mpr (by linarith)
  omega

theorem price_to_y_weakly_monotone_witness :
    _price_to_y_position 100 2 0 1000 ≤ _price_to_y_position 100 1 0 1000 :=
  price_to_y_weakly_monotone 100 0 1 2 1000 (by norm_num) (by norm_num) (by norm_num)

/-- Claim C4 (counterexample to strict monotonicity): with image height 100 and
price range (0, 1000), the prices 1 and 2 both map to y = 90, so the claimed
strict inequality fails. -/
theorem price_to_y_not_strict :
    ((0 : ℚ) < 1 ∧ (1 : ℚ) < 2 ∧ (2 : ℚ) < 1000) ∧
    ¬ (_price_to_y_position 100 2 0 1000 < _price_to_y_position 100 1 0 1000) := by
  have e1 : pyInt ((1 - 0) / (1000 - 0) * ((100 : ℚ) * (9/10))) = 0 :=
    pyInt_eval _ 0 (by norm_num) (by norm_num) (by norm_num)
  have e2 : pyInt ((2 - 0) / (1000 - 0) * ((100 : ℚ) * (9/10))) = 0 :=
    pyInt_eval _ 0 (by norm_num) (by norm_num) (by norm_num)
  have e3 : pyInt ((100 : ℚ) * (1/20)) = 5 :=
    pyInt_eval _ 5 (by norm_num) (by norm_num) (by norm_num)
  refine ⟨⟨by norm_num, by norm_num, by norm_num⟩, ?_⟩
  simp only [_price_to_y_position]
  rw [if_neg (by norm_num : (1000 : ℚ) - 0 ≠ 0), if_neg (by norm_num : (1000 : ℚ) - 0 ≠ 0)]
  push_cast
  rw [e1, e2, e3]
  norm_num

/-- A decoded RGB image: width, height and the pixel grid (as loaded by
`Image.open(...).convert('RGB')`). -/
structure PyImage where
  width : ℕ
  height : ℕ
  pixel : ℕ → ℕ → ℕ × ℕ × ℕ

/-- PIL `Image.getpixel`: a negative coordinate wraps once from the right or
bottom edge, and an access still out of bounds raises `IndexError`, modelled
as `Option.none`. -/
def getpixel (img : PyImage) (x y : ℤ) : Option (ℕ × ℕ × ℕ) :=
  let xw := if x < 0 then x + img.width else x
  let yw := if y < 0 then y + img.height else y
  if 0 ≤ xw ∧ xw < img.width ∧ 0 ≤ yw ∧ yw < img.height then
    some (img.pixel xw.toNat yw.toNat)
  else Option.none

/-- Brightness of one sample in `_detect_chart_theme`: `sum(pixel[:3]) / 3`. -/
def pixelBrightness (p : ℕ × ℕ × ℕ) : ℚ := ((p.1 : ℚ) + p.2.1 + p.2.2) / 3

/-- The method `ChartAnnotator._detect_chart_theme`: samples the four corner
pixels at a fixed 10-pixel inset (no clamping appears in the source) and
classifies the chart as dark when the average brightness is below 128.  A
failing pixel lookup propagates as `none` (in Python, an uncaught
`IndexError`). -/
def _detect_chart_theme (img : PyImage) : Option Bool := do
  let p1 ← getpixel img 10 10
  let p2 ← getpixel img ((img.width : ℤ) - 10) 10
  let p3 ← getpixel img 10 ((img.height : ℤ) - 10)
  let p4 ← getpixel img ((img.width : ℤ) - 10) ((img.height : ℤ) - 10)
  let total_brightness :=
    pixelBrightness p1 + pixelBrightness p2 + pixelBrightness p3 + pixelBrightness p4
  let avg_brightness := total_brightness / 4
  pure (decide (avg_brightness < 128))

theorem getpixel_in_bounds (img : PyImage) (x y : ℤ) (hx0 : 0 ≤ x) (hx : x < img.width)
    (hy0 : 0 ≤ y) (hy : y < img.height) :
    getpixel img x y = some (img.pixel x.toNat y.toNat) := by
  simp only [getpixel]
  rw [if_neg (not_lt.mpr hx0), if_neg (not_lt.mpr hy0), if_pos ⟨hx0, hx, hy0, hy⟩]

/-- Claim C5 (counterexample): on a 5×5 all-black image the theme detector does
not return a boolean: the fixed corner coordinate (10, 10) is out of bounds
and the pixel lookup fails (Python raises `IndexError`); no clamping exists. -/
theorem detect_chart_theme_small_image_fails :
    _detect_chart_theme ⟨5, 5, fun _ _ => (0, 0, 0)⟩ = Option.none := rfl

/-- Claim C5 (amended): the theme detector is total only on images at least 11
pixels wide and 11 pixels tall; there it always returns a boolean. -/
theorem detect_chart_theme_total_when_large :
    ∀ img : PyImage, 11 ≤ img.width → 11 ≤ img.height →
      (_detect_chart_theme img).isSome = true := by
  intro img hw hh
  have g1 := getpixel_in_bounds img 10 10 (by omega) (by omega) (by omega) (by omega)
  have g2 := getpixel_in_bounds img ((img.width : ℤ) - 10) 10
    (by omega) (by omega) (by omega) (by omega)
  have g3 := getpixel_in_bounds img 10 ((img.height : ℤ) - 10)
    (by omega) (by omega) (by omega) (by omega)
  have g4 := getpixel_in_bounds img ((img.width : ℤ) - 10) ((img.height : ℤ) - 10)
    (by omega) (by omega) (by omega) (by omega)
  simp [_detect_chart_theme, g1, g2, g3, g4]

theorem detect_chart_theme_total_when_large_witness :
    (_detect_chart_theme ⟨11, 11, fun _ _ => (255, 255, 255)⟩).isSome = true :=
  detect_chart_theme_total_when_large ⟨11, 11, fun _ _ => (255, 255, 255)⟩
    (le_refl 11) (le_refl 11)

/-- Numeric value of a list of decimal digit characters. -/
def digitsVal (l : List Char) : ℕ := l.foldl (fun acc c => acc * 10 + (c.toNat - 48)) 0

/-- A model of Python `float(s)` on decimal literals: an optional sign, then
digits with at most one decimal point and at least one digit overall.
Exponent, infinity, NaN and underscore forms are not modelled; every string
the claims exercise is of this decimal shape or fails to parse. -/
def parseDecimal (s : List Char) : Option ℚ :=
  let signAndDigits : ℚ × List Char :=
    match s with
    | '-' :: rest => (-1, rest)
    | '+' :: rest => (1, rest)
    | rest => (1, rest)
  let sign := signAndDigits.1
  let ds := signAndDigits.2
  let intPart := ds.takeWhile fun c => c.isDigit
  let rest := ds.drop intPart.length
  match rest with
  | [] => if intPart.isEmpty then Option.none else some (sign * digitsVal intPart)
  | '.' :: frac =>
    if (frac.all fun c => c.isDigit) && !(intPart.isEmpty && frac.isEmpty) then
      some (sign * ((digitsVal intPart : ℚ) + (digitsVal frac : ℚ) / (10 ^ frac.length)))
    else Option.none
  | _ => Option.none

/-- A Python value occurring in a price field of the analysis payload: a
number, a string, or `None`/absent. -/
inductive PyVal where
  | num (q : ℚ)
  | str (s : List Char)
  | pynone
deriving DecidableEq

/-- `List.filter` applied charwise models `str.replace(pat, '')` for a
single-character pattern. -/
def removeChar (c : Char) (l : List Char) : List Char := l.filter fun a => a ≠ c

/-- `str.strip()`: drop whitespace from both ends. -/
def pyStrip (l : List Char) : List Char :=
  ((l.dropWhile Char.isWhitespace).reverse.dropWhile Char.isWhitespace).reverse

/-- The method `ChartAnnotator._parse_price`:
`float(str(v).replace(',', '').replace(' ', '').strip())` with any
`ValueError`/`TypeError` collapsed to `0.0`.  For a numeric `v`, `float(str(v))`
is the identity; for `None`, `float("None")` raises, giving `0.0`.  Strings are
modelled as char lists so the cleaning steps stay kernel-computable. -/
def _parse_price (v : PyVal) : ℚ :=
  match v with
  | PyVal.num q => q
  | PyVal.str s => (parseDecimal (pyStrip (removeChar ' ' (removeChar ',' s)))).getD 0
  | PyVal.pynone => 0

/-- The analysis-payload fields consumed by `ChartAnnotator.annotate_chart`.
The free-text fields (`bias`, `setup`, `key_level`, `reasoning`,
`confidence`) feed only the abstracted drawing step and are not modelled. -/
structure AnalysisData where
  entry : PyVal
  sl : PyVal
  tp : PyVal
  error : Bool

/-- `os.path.basename`. -/
def basename (s : String) : String := (s.splitOn "/").getLastD s

/-- The output path `CHARTS_DIR / f"annotated_..."` built by `annotate_chart`. -/
def outputPath (orig : String) : String := "charts/annotated_" ++ basename orig

/-- The try-body of `ChartAnnotator.annotate_chart`.  The PIL drawing calls
and the final `image.save` are abstracted into one fallible step `render`:
`some msg` means some drawing or saving call raised an exception.
(`_draw_signal_text` cannot raise — it has its own try/except — and
`_parse_price` is total, so the drawing/saving phase is the only fallible
region of the body.)  The result carries the returned path and the list of
output files written. -/
def annotateBody (render : Option String) (d : AnalysisData) (orig : String) :
    Except String (String × List String) :=
  let entry_price := _parse_price d.entry
  let sl_price := _parse_price d.sl
  let tp_price := _parse_price d.tp
  if entry_price = 0 ∧ sl_price = 0 then Except.ok (orig, [])
  else
    let prices := [entry_price, sl_price, tp_price].filter fun p => 0 < p
    if prices.isEmpty then Except.ok (orig, [])
    else
      match render with
      | some msg => Except.error msg
      | Option.none => Except.ok (outputPath orig, [outputPath orig])

/-- `ChartAnnotator.annotate_chart`: the body above wrapped in the try/except
that absorbs every exception and falls back to the original path, with no
output file produced. -/
def annotate_chart (render : Option String) (d : AnalysisData) (orig : String) :
    String × List String :=
  match annotateBody render d orig with
  | Except.ok res => res
  | Except.error _ => (orig, [])

/-- Claim C6: when the entry and sl fields both parse to 0, `annotate_chart`
is a no-op — it returns the input path unchanged and creates no output file,
whatever the rendering step would have done. -/
theorem annotate_chart_noop_on_zero_prices :
    ∀ (render : Option String) (d : AnalysisData) (orig : String),
      _parse_price d.entry = 0 → _parse_price d.sl = 0 →
      annotate_chart render d orig = (orig, []) := by
  intro render d orig he hs
  simp [annotate_chart, annotateBody, he, hs]

theorem annotate_chart_noop_on_zero_prices_witness :
    annotate_chart (some "font error")
      ⟨PyVal.str ("N/A".toList), PyVal.pynone, PyVal.num 5, false⟩ "chart.jpg"
      = ("chart.jpg", []) :=
  annotate_chart_noop_on_zero_prices (some "font error")
    ⟨PyVal.str ("N/A".toList), PyVal.pynone, PyVal.num 5, false⟩ "chart.jpg"
    (by decide) rfl

/-- Claim C7: any exception raised by the rendering body of `annotate_chart`
is absorbed: whenever the try-body fails, the function returns the original
unannotated input path (writing no file) instead of propagating the failure. -/
theorem annotate_chart_absorbs_render_failures :
    ∀ (render : Option String) (d : AnalysisData) (orig : String) (msg : String),
      annotateBody render d orig = Except.error msg →
      annotate_chart render d orig = (orig, []) := by
  intro render d orig msg h
  simp [annotate_chart, h]

theorem annotate_chart_absorbs_render_failures_witness :
    annotate_chart (some "draw failed")
      ⟨PyVal.num 100, PyVal.num 90, PyVal.num 105, false⟩ "chart2.jpg"
      = ("chart2.jpg", []) :=
  annotate_chart_absorbs_render_failures (some "draw failed")
    ⟨PyVal.num 100, PyVal.num 90, PyVal.num 105, false⟩ "chart2.jpg" "draw failed"
    (by norm_num [annotateBody, _parse_price])

/-- Python `round(q)`: round half to even, on an exact rational. -/
def pyRoundHalfEven (q : ℚ) : ℤ :=
  let f := ⌊q⌋
  let r := q - f
  if r < 1/2 then f
  else if 1/2 < r then f + 1
  else if f % 2 = 0 then f else f + 1

/-- Python `round(q, 2)`. -/
def pyRound2 (q : ℚ) : ℚ := (pyRoundHalfEven (q * 100) : ℚ) / 100

theorem pyRoundHalfEven_intCast (z : ℤ) : pyRoundHalfEven (z : ℚ) = z := by
  simp only [pyRoundHalfEven, Int.floor_intCast, sub_self]
  norm_num

theorem pyRound2_eval (q : ℚ) (z : ℤ) (h : q * 100 = (z : ℚ)) :
    pyRound2 q = (z : ℚ) / 100 := by
  rw [pyRound2, h, pyRoundHalfEven_intCast]

/-- `str.lower()` on an ASCII bias string, modelled charwise. -/
def pyLower (s : List Char) : List Char := s.map Char.toLower

/-- The reward:risk number rendered by `ChartAnnotator._draw_signal_text` when
all three price fields are numeric: a bias-dependent sign convention applied
to the payload's own entry/sl/tp, rounded to two decimals; biases other than
long/short take `risk = 1, reward = 0`, and
`rr = round(reward / risk, 2) if risk > 0 else 0`.  (On numeric fields the
`float(str(x).replace(',', ''))` conversions are the identity, so the prices
enter as rationals.) -/
def signalRR (bias : List Char) (entry_val sl_val tp_val : ℚ) : ℚ :=
  let rr0 : ℚ × ℚ :=
    if pyLower bias = "long".toList then (entry_val - sl_val, tp_val - entry_val)
    else if pyLower bias = "short".toList then (sl_val - entry_val, entry_val - tp_val)
    else (1, 0)
  if rr0.1 > 0 then pyRound2 (rr0.2 / rr0.1) else 0

/-- The result of `calculate_position_size(entry=100, stop=90, balance=1000,
risk_percent=2, leverage=1)`, a long position. -/
def longCalc : PositionCalculation :=
  ⟨100, 90, 1000, 2, 1, 2, 200, 40, 20, 2⟩

/-- Claim C9 (counterexample): for the long payload `entry=100, sl=90, tp=105`
the summary box renders `RR 1:0.5`, while the position-size calculator for the
same entry and stop yields `rr_ratio = 2`: the two RR computations disagree,
because the annotator uses the payload's own tp and the calculator synthesizes
its own profit target. -/
theorem signal_rr_disagrees_with_calculator :
    signalRR ("Long".toList) 100 90 105 = 1/2 ∧
    calculate_position_size 100 90 1000 2 1 = Except.ok longCalc ∧
    longCalc.rr_ratio = 2 ∧ (1/2 : ℚ) ≠ 2 := by
  refine ⟨?_, ?_, by norm_num [longCalc], by norm_num⟩
  · simp only [signalRR]
    rw [if_pos (by decide : pyLower ("Long".toList) = "long".toList),
      if_pos (by norm_num : (100 : ℚ) - 90 > 0),
      show ((105 : ℚ) - 100) / (100 - 90) = 1/2 by norm_num]
    exact (pyRound2_eval (1/2) 50 (by norm_num)).trans (by norm_num)
  · have habs : |(10 : ℚ)| = 10 := abs_of_pos (by norm_num)
    norm_num [calculate_position_size, longCalc, habs]

/-- Claim C9 (amended): the two RR computations agree whenever the payload's
tp equals the calculator's synthesized profit target: with positive balance,
risk percent and leverage, a long payload (bias "long", sl < entry,
tp = entry + 2*(entry - sl)) gives 2 on both sides, and a short payload
(bias "short", entry < sl, tp = sl - 2*(sl - entry)) gives 1 on both sides. -/
theorem signal_rr_agrees_at_synthesized_tp :
    ∀ e s b r l : ℚ, 0 < b → 0 < r → 0 < l →
      (∀ c, s < e → calculate_position_size e s b r l = Except.ok c →
          signalRR ("long".toList) e s (e + (e - s) * 2) = c.rr_ratio ∧ c.rr_ratio = 2) ∧
      (∀ c, e < s → calculate_position_size e s b r l = Except.ok c →
          signalRR ("short".toList) e s (s - (s - e) * 2) = c.rr_ratio ∧ c.rr_ratio = 1) := by
  intro e s b r l hb hr hl
  constructor
  · intro c hes h
    have habs : |e - s| = e - s := abs_of_pos (sub_pos.mpr hes)
    simp only [calculate_position_size, habs] at h
    rw [if_neg (sub_ne_zero.mpr hes.ne'), if_neg hl.ne', if_pos hes] at h
    simp only [Except.ok.injEq] at h
    have hL : 0 < b * r / 100 / (e - s) * l :=
      mul_pos (div_pos (div_pos (mul_pos hb hr) (by norm_num)) (sub_pos.mpr hes)) hl
    have hloss : 0 < (e - s) * (b * r / 100 / (e - s) * l) :=
      mul_pos (sub_pos.mpr hes) hL
    have hrr : (e + (e - s) * 2 - e) * (b * r / 100 / (e - s) * l) /
        ((e - s) * (b * r / 100 / (e - s) * l)) = 2 := by
      rw [show (e + (e - s) * 2 - e) * (b * r / 100 / (e - s) * l)
            = 2 * ((e - s) * (b * r / 100 / (e - s) * l)) by ring]
      exact mul_div_cancel_right₀ 2 (ne_of_gt hloss)
    have hfield : c.rr_ratio = 2 := by
      rw [← h]
      dsimp only
      rw [if_pos hloss]
      exact hrr
    have hsig : signalRR ("long".toList) e s (e + (e - s) * 2) = 2 := by
      simp only [signalRR]
      rw [if_pos (by decide : pyLower ("long".toList) = "long".toList)]
      dsimp only
      rw [if_pos (sub_pos.mpr hes),
        show (e + (e - s) * 2 - e) / (e - s) = 2 * ((e - s) / (e - s)) by ring,
        div_self (sub_ne_zero.mpr hes.ne'), mul_one]
      exact (pyRound2_eval 2 200 (by norm_num)).trans (by norm_num)
    exact ⟨hsig.trans hfield.symm, hfield⟩
  · intro c hes h
    have habs : |e - s| = s - e := by
      rw [abs_of_neg (sub_neg.mpr hes), neg_sub]
    simp only [calculate_position_size, habs] at h
    rw [if_neg (sub_ne_zero.mpr hes.ne'), if_neg hl.ne',
      if_neg (not_lt.mpr hes.le)] at h
    simp only [Except.ok.injEq] at h
    have hL : 0 < b * r / 100 / (s - e) * l :=
      mul_pos (div_pos (div_pos (mul_pos hb hr) (by norm_num)) (sub_pos.mpr hes)) hl
    have hloss : 0 < (s - e) * (b * r / 100 / (s - e) * l) :=
      mul_pos (sub_pos.mpr hes) hL
    have hrr : (e - (s - (s - e) * 2)) * (b * r / 100 / (s - e) * l) /
        ((s - e) * (b * r / 100 / (s - e) * l)) = 1 := by
      rw [show (e - (s - (s - e) * 2)) * (b * r / 100 / (s - e) * l)
            = 1 * ((s - e) * (b * r / 100 / (s - e) * l)) by ring]
      exact mul_div_cancel_right₀ 1 (ne_of_gt hloss)
    have hfield : c.rr_ratio = 1 := by
      rw [← h]
      dsimp only
      rw [if_pos hloss]
      exact hrr
    have hsig : signalRR ("short".toList) e s (s - (s - e) * 2) = 1 := by
      simp only [signalRR]
      rw [if_neg (by decide : ¬ pyLower ("short".toList) = "long".toList),
        if_pos (by decide : pyLower ("short".toList) = "short".toList)]
      dsimp only
      rw [if_pos (sub_pos.mpr hes),
        show e - (s - (s - e) * 2) = s - e by ring,
        div_self (sub_ne_zero.mpr hes.ne')]
      exact (pyRound2_eval 1 100 (by norm_num)).trans (by norm_num)
    exact ⟨hsig.trans hfield.symm, hfield⟩

theorem signal_rr_agrees_at_synthesized_tp_witness :
    signalRR ("long".toList) 100 90 (100 + ((100 : ℚ) - 90) * 2) = longCalc.rr_ratio ∧
    longCalc.rr_ratio = 2 :=
  (signal_rr_agrees_at_synthesized_tp 100 90 1000 2 1 (by norm_num) (by norm_num)
      (by norm_num)).1 longCalc (by norm_num)
    (by
      have habs : |(10 : ℚ)| = 10 := abs_of_pos (by norm_num)
      norm_num [calculate_position_size, longCalc, habs])

/-- The `RiskLevel` enum of `leverage_calculator.py`. -/
inductive RiskLevel where
  | CONSERVATIVE
  | MODERATE
  | AGGRESSIVE
deriving DecidableEq

/-- The `VolatilityLevel` enum of `leverage_calculator.py`. -/
inductive VolatilityLevel where
  | LOW
  | MEDIUM
  | HIGH
deriving DecidableEq

/-- `LeverageCalculator.max_leverage`. -/
def max_leverage : ℚ := 100

/-- `LeverageCalculator.min_leverage` — configured in `__init__` but, as claim
C10 records, never consulted by `recommend_leverage`. -/
def min_leverage : ℚ := 1

/-- `LeverageCalculator.risk_percentages`. -/
def risk_percentages : RiskLevel → ℚ
  | RiskLevel.CONSERVATIVE => 1
  | RiskLevel.MODERATE => 2
  | RiskLevel.AGGRESSIVE => 5

/-- `LeverageCalculator.analyze_volatility` (the unused `price_range` argument
is dropped). -/
def analyze_volatility (confidence : ℤ) : VolatilityLevel :=
  if confidence ≥ 80 then VolatilityLevel.LOW
  else if confidence ≥ 60 then VolatilityLevel.MEDIUM
  else VolatilityLevel.HIGH

/-- `LeverageCalculator._calculate_base_leverage`. -/
def _calculate_base_leverage (confidence : ℤ) : ℚ :=
  if confidence ≥ 90 then 20
  else if confidence ≥ 80 then 15
  else if confidence ≥ 70 then 10
  else if confidence ≥ 60 then 5
  else if confidence ≥ 50 then 3
  else 1

/-- `LeverageCalculator._get_volatility_multiplier`. -/
def _get_volatility_multiplier : VolatilityLevel → ℚ
  | VolatilityLevel.LOW => 3/2
  | VolatilityLevel.MEDIUM => 1
  | VolatilityLevel.HIGH => 1/2

/-- `LeverageCalculator._get_risk_multiplier`. -/
def _get_risk_multiplier : RiskLevel → ℚ
  | RiskLevel.CONSERVATIVE => 7/10
  | RiskLevel.MODERATE => 1
  | RiskLevel.AGGRESSIVE => 13/10

/-- The `LeverageRecommendation` dataclass; the free-text `reasoning` and
`warning` fields are not modelled (no claim concerns them). -/
structure LeverageRecommendation where
  recommended_leverage : ℚ
  risk_level : RiskLevel
  position_size_percent : ℚ
  max_loss_percent : ℚ

/-- `LeverageCalculator.recommend_leverage`; the `account_balance` argument is
accepted and ignored, exactly as in the source. -/
def recommend_leverage (confidence : ℤ) (volatility : VolatilityLevel)
    (account_balance : ℚ) (risk_level : RiskLevel) : LeverageRecommendation :=
  let base_leverage := _calculate_base_leverage confidence
  let volatility_multiplier := _get_volatility_multiplier volatility
  let risk_multiplier := _get_risk_multiplier risk_level
  let recommended_leverage :=
    min (base_leverage * volatility_multiplier * risk_multiplier) max_leverage
  let position_size_percent := risk_percentages risk_level
  let max_loss_percent := position_size_percent
  { recommended_leverage := recommended_leverage
    risk_level := risk_level
    position_size_percent := position_size_percent
    max_loss_percent := max_loss_percent }

theorem base_leverage_mono {c1 c2 : ℤ} (h : c1 ≤ c2) :
    _calculate_base_leverage c1 ≤ _calculate_base_leverage c2 := by
  unfold _calculate_base_leverage
  split_ifs <;> first | (exfalso; omega) | norm_num

theorem vol_mult_pos (v : VolatilityLevel) : 0 < _get_volatility_multiplier v := by
  cases v <;> norm_num [_get_volatility_multiplier]

theorem risk_mult_pos (r : RiskLevel) : 0 < _get_risk_multiplier r := by
  cases r <;> norm_num [_get_risk_multiplier]

/-- Claim C8: for fixed volatility and risk level, the recommended leverage is
monotonically non-decreasing in confidence, and it is at most 100 for all
inputs. -/
theorem recommend_leverage_monotone_and_capped :
    (∀ (v : VolatilityLevel) (r : RiskLevel) (b : ℚ) (c1 c2 : ℤ), c1 ≤ c2 →
        (recommend_leverage c1 v b r).recommended_leverage ≤
          (recommend_leverage c2 v b r).recommended_leverage) ∧
    (∀ (c : ℤ) (v : VolatilityLevel) (r : RiskLevel) (b : ℚ),
        (recommend_leverage c v b r).recommended_leverage ≤ 100) := by
  constructor
  · intro v r b c1 c2 h
    simp only [recommend_leverage]
    refine min_le_min ?_ le_rfl
    exact mul_le_mul_of_nonneg_right
      (mul_le_mul_of_nonneg_right (base_leverage_mono h) (le_of_lt (vol_mult_pos v)))
      (le_of_lt (risk_mult_pos r))
  · intro c v r b
    simp only [recommend_leverage]
    simpa [max_leverage] using
      min_le_right (_calculate_base_leverage c * _get_volatility_multiplier v *
        _get_risk_multiplier r) max_leverage

theorem recommend_leverage_monotone_and_capped_witness :
    (recommend_leverage 55 VolatilityLevel.HIGH 1000 RiskLevel.MODERATE).recommended_leverage ≤
      (recommend_leverage 95 VolatilityLevel.HIGH 1000 RiskLevel.MODERATE).recommended_leverage ∧
    (recommend_leverage 95 VolatilityLevel.HIGH 1000 RiskLevel.MODERATE).recommended_leverage
      ≤ 100 :=
  ⟨recommend_leverage_monotone_and_capped.1 VolatilityLevel.HIGH RiskLevel.MODERATE 1000 55 95
      (by norm_num),
   recommend_leverage_monotone_and_capped.2 95 VolatilityLevel.HIGH RiskLevel.MODERATE 1000⟩

/-- Claim C10: `recommend_leverage` enforces no lower bound — with confidence
below 50, High volatility and Conservative risk the result is
`1 * 0.5 * 0.7 = 0.35`, strictly below the configured `min_leverage` of 1. -/
theorem recommend_leverage_no_floor :
    min_leverage = 1 ∧
    ∀ c : ℤ, c < 50 →
      (recommend_leverage c VolatilityLevel.HIGH 1000
          RiskLevel.CONSERVATIVE).recommended_leverage = 1 * (1/2) * (7/10) ∧
      (recommend_leverage c VolatilityLevel.HIGH 1000
          RiskLevel.CONSERVATIVE).recommended_leverage < min_leverage := by
  refine ⟨rfl, ?_⟩
  intro c hc
  have hbase : _calculate_base_leverage c = 1 := by
    unfold _calculate_base_leverage
    rw [if_neg (by omega), if_neg (by omega), if_neg (by omega), if_neg (by omega),
      if_neg (by omega)]
  have hval : (recommend_leverage c VolatilityLevel.HIGH 1000
      RiskLevel.CONSERVATIVE).recommended_leverage = 1 * (1/2) * (7/10) := by
    simp only [recommend_leverage, hbase, _get_volatility_multiplier, _get_risk_multiplier]
    exact min_eq_left (by norm_num [max_leverage])
  exact ⟨hval, by rw [hval, min_leverage]; norm_num⟩

theorem recommend_leverage_no_floor_witness :
    (recommend_leverage 40 VolatilityLevel.HIGH 1000
        RiskLevel.CONSERVATIVE).recommended_leverage = 1 * (1/2) * (7/10) ∧
    (recommend_leverage 40 VolatilityLevel.HIGH 1000
        RiskLevel.CONSERVATIVE).recommended_leverage < min_leverage :=
  (recommend_leverage_no_floor.2 40 (by norm_num))
